import Mathlib

/-! Formal model of the beacon-server core: relay output parsing and outcome
classification, upload dispatch, signature format checking, custodial key
derivation (PBKDF2-HMAC-SHA256), Arkiv entity construction, and the in-memory
chat storage.  Each definition is translated from the corresponding TypeScript
source file of the repository; external collaborators (the relay subprocess,
ethers, the Arkiv and Pinata backends) appear as explicit inputs. -/

/-! ### Character-list helpers (JS string primitives) -/

/-- Whitespace test covering the regex whitespace class and
String.prototype.trim for the ASCII transcripts the relay emits. -/
def isWsChar (c : Char) : Bool := c.isWhitespace

/-- Trim whitespace from both ends of a character list (JS String.trim). -/
def trimChars (cs : List Char) : List Char :=
  ((cs.dropWhile isWsChar).reverse.dropWhile isWsChar).reverse

/-- Split a character list at newline characters; JS String.split with a
newline separator, which preserves empty segments. -/
def splitNl : List Char → List (List Char)
  | [] => [[]]
  | c :: rest =>
    if c = '\n' then [] :: splitNl rest
    else
      match splitNl rest with
      | [] => [[c]]
      | l :: ls => (c :: l) :: ls

/-- Does the second list contain the first as a contiguous subsequence
(JS String.includes)? -/
def containsSeq (pat : List Char) : List Char → Bool
  | [] => pat.isEmpty
  | c :: rest => pat.isPrefixOf (c :: rest) || containsSeq pat rest

/-- Drop a literal from the front of a character list, if present. -/
def dropLit : List Char → List Char → Option (List Char)
  | [], rest => some rest
  | _ :: _, [] => none
  | l :: lt, c :: ct => if l = c then dropLit lt ct else none

/-- Value of a decimal digit run (JS parseInt, base 10, on a digit string). -/
def digitsToNat (ds : List Char) : Nat :=
  ds.foldl (fun n c => n * 10 + (c.toNat - 48)) 0

/-! ### Relay output parsing — src/utils/xxnetwork.ts, parseXXNetworkOutput -/

/-- Parsed relay data; unset scalar fields are `none` (undefined in the
source), list fields start empty and the received counter starts at zero. -/
structure XXNetworkResponse where
  dmPubKey : Option String := none
  dmToken : Option String := none
  dmRecvPubKey : Option String := none
  dmRecvToken : Option String := none
  userReceptionID : Option String := none
  networkStatus : Option Bool := none
  messageIds : List String := []
  roundIds : List Nat := []
  receivedMessages : Nat := 0
deriving Repr, DecidableEq

/-- The initial accumulator of the parser. -/
def XXNetworkResponse.init : XXNetworkResponse := {}

/-- The value of a labeled line: the source removes the leading label with
String.replace (first occurrence, which the startsWith guard places at the
front) and trims the remainder. -/
def labelValue (label line : List Char) : String :=
  ⟨trimChars (line.drop label.length)⟩

/-- Match the DM Send regex at the start of `cs`: the literal label, optional
whitespace, a nonempty comma-free capture, a comma, optional whitespace, a
nonempty digit run, and a final comma.  Returns the trimmed capture and the
digit run's value, exactly the two groups the source pushes. -/
def dmSendAt (cs : List Char) : Option (String × Nat) :=
  match dropLit "DM Send:".toList cs with
  | none => none
  | some rest =>
    let seg := rest.takeWhile (fun c => c ≠ ',')
    match rest.dropWhile (fun c => c ≠ ',') with
    | ',' :: rest2 =>
      if seg.isEmpty then none
      else
        let rest3 := rest2.dropWhile isWsChar
        let ds := rest3.takeWhile Char.isDigit
        if ds.isEmpty then none
        else
          match rest3.dropWhile Char.isDigit with
          | ',' :: _ => some (⟨trimChars seg⟩, digitsToNat ds)
          | _ => none
    | _ => none

/-- Leftmost match of the DM Send regex anywhere in the line. -/
def dmSendMatch : List Char → Option (String × Nat)
  | [] => none
  | c :: rest =>
    match dmSendAt (c :: rest) with
    | some r => some r
    | none => dmSendMatch rest

/-- Match the received-summary regex at the start of `cs`: the literal
label, a nonempty digit run, a slash, a second nonempty digit run and the
literal tail; returns the first group's value. -/
def receivedAt (cs : List Char) : Option Nat :=
  match dropLit "Received ".toList cs with
  | none => none
  | some rest =>
    let ds := rest.takeWhile Char.isDigit
    if ds.isEmpty then none
    else
      match rest.dropWhile Char.isDigit with
      | '/' :: rest2 =>
        if (rest2.takeWhile Char.isDigit).isEmpty then none
        else
          match dropLit " messages".toList (rest2.dropWhile Char.isDigit) with
          | some _ => some (digitsToNat ds)
          | none => none
      | _ => none

/-- Leftmost match of the received-summary regex anywhere in the line. -/
def receivedMatch : List Char → Option Nat
  | [] => none
  | c :: rest =>
    match receivedAt (c :: rest) with
    | some r => some r
    | none => receivedMatch rest

/-- One line of the parser's if/else-if chain, in source order. -/
def processLine (r : XXNetworkResponse) (line : List Char) : XXNetworkResponse :=
  if ("DMPUBKEY:".toList).isPrefixOf line then
    { r with dmPubKey := some (labelValue "DMPUBKEY:".toList line) }
  else if ("DMTOKEN:".toList).isPrefixOf line then
    { r with dmToken := some (labelValue "DMTOKEN:".toList line) }
  else if ("DMRECVPUBKEY:".toList).isPrefixOf line then
    { r with dmRecvPubKey := some (labelValue "DMRECVPUBKEY:".toList line) }
  else if ("DMRECVTOKEN:".toList).isPrefixOf line then
    { r with dmRecvToken := some (labelValue "DMRECVTOKEN:".toList line) }
  else if ("User ReceptionID:".toList).isPrefixOf line then
    { r with userReceptionID := some (labelValue "User ReceptionID:".toList line) }
  else if ("Network Status:".toList).isPrefixOf line then
    let isConnected := labelValue "Network Status:".toList line == "true"
    if isConnected || r.networkStatus == none then
      { r with networkStatus := some isConnected }
    else r
  else if ("DM Send:".toList).isPrefixOf line then
    match dmSendMatch line with
    | some (msgId, roundId) =>
      { r with messageIds := r.messageIds ++ [msgId]
               roundIds := r.roundIds ++ [roundId] }
    | none => r
  else if containsSeq "Message received".toList line then
    { r with receivedMessages := r.receivedMessages + 1 }
  else
    match receivedMatch line with
    | some n => { r with receivedMessages := n }
    | none => r

/-- parseXXNetworkOutput: split the combined output at newlines and fold the
per-line extraction over it. -/
def parseXXNetworkOutput (output : String) : XXNetworkResponse :=
  (splitNl output.data).foldl processLine XXNetworkResponse.init

/-! ### Relay invocation outcome — src/utils/xxnetwork.ts, sendToXXNetwork -/

/-- The observable result of the bounded `execAsync` wait: either the process
exited cleanly within the bound (resolved promise) or the call rejected, in
which case Node attaches an error code, a message and the captured output
streams to the error object. -/
inductive ExecResult where
  | success (stdout stderr : String)
  | failure (code errMsg stdout stderr : String)
deriving Repr, DecidableEq

instance {ε α : Type _} [DecidableEq ε] [DecidableEq α] : DecidableEq (Except ε α) :=
  fun x y =>
    match x, y with
    | .error a, .error b =>
      if h : a = b then isTrue (h ▸ rfl) else isFalse (fun he => h (Except.error.inj he))
    | .ok a, .ok b =>
      if h : a = b then isTrue (h ▸ rfl) else isFalse (fun he => h (Except.ok.inj he))
    | .error _, .ok _ => isFalse (fun he => Except.noConfusion he)
    | .ok _, .error _ => isFalse (fun he => Except.noConfusion he)

/-- The two errors sendToXXNetwork can raise. -/
inductive RelayError where
  | timeoutNoData (msg : String)
  | processError (msg : String)
deriving Repr, DecidableEq

/-- JS truthiness of an optional string field: the field tests of the catch
block are bare truthiness tests, so an extracted but empty value counts as
absent. -/
def fieldTruthy : Option String → Bool
  | some s => s != ""
  | none => false

/-- Outcome classification of one relay invocation, translated from the
try/catch of sendToXXNetwork: on a clean exit the parsed combined output is
returned; on a rejected wait the combined captured output is parsed, any of a
truthy dmPubKey / nonempty messageIds / truthy userReceptionID makes the call
a success, an ETIMEDOUT code with neither a truthy dmPubKey nor messageIds
raises the timeout error, absence of any captured output raises the execution
error, and anything else returns the (possibly empty) parsed data. -/
def sendToXXNetwork : ExecResult → Except RelayError XXNetworkResponse
  | .success stdout stderr =>
    .ok (parseXXNetworkOutput (stdout ++ "\n" ++ stderr))
  | .failure code errMsg stdout stderr =>
    let parsedData := parseXXNetworkOutput (stdout ++ "\n" ++ stderr)
    if fieldTruthy parsedData.dmPubKey || !parsedData.messageIds.isEmpty
        || fieldTruthy parsedData.userReceptionID then
      .ok parsedData
    else if code == "ETIMEDOUT" && !fieldTruthy parsedData.dmPubKey
        && parsedData.messageIds.isEmpty then
      .error (.timeoutNoData "xx-network command timed out without receiving any data")
    else if stdout == "" && stderr == "" then
      .error (.processError ("Failed to execute xx-network command: " ++ errMsg))
    else
      .ok parsedData

/-! ### Received-count projections of the parser -/

/-- The per-line receivedCount rule read literally from the spec sentence:
every line containing the received marker increments the counter, and
otherwise a line matching the received-summary pattern overwrites it. -/
def claimRecvStep (n : Nat) (line : List Char) : Nat :=
  if containsSeq "Message received".toList line then n + 1
  else
    match receivedMatch line with
    | some k => k
    | none => n

/-- Fold of the literal rule over a transcript. -/
def claimRecvCount (output : String) : Nat :=
  (splitNl output.data).foldl claimRecvStep 0

/-- The per-line effect the parser actually has on receivedCount: a line
captured by one of the earlier labeled-field branches leaves the counter
untouched; only the remaining lines are counted or summarized. -/
def recvStep (n : Nat) (line : List Char) : Nat :=
  if ("DMPUBKEY:".toList).isPrefixOf line then n
  else if ("DMTOKEN:".toList).isPrefixOf line then n
  else if ("DMRECVPUBKEY:".toList).isPrefixOf line then n
  else if ("DMRECVTOKEN:".toList).isPrefixOf line then n
  else if ("User ReceptionID:".toList).isPrefixOf line then n
  else if ("Network Status:".toList).isPrefixOf line then n
  else if ("DM Send:".toList).isPrefixOf line then n
  else if containsSeq "Message received".toList line then n + 1
  else
    match receivedMatch line with
    | some k => k
    | none => n

/-- Fold of the parser's per-line counter effect over a transcript. -/
def recvCount (output : String) : Nat :=
  (splitNl output.data).foldl recvStep 0

/-! ### Attestation verifier — src/utils/signature.ts, verifySignatureAndGetAddress -/

/-- JS String.length counts UTF-16 code units: astral code points weigh 2. -/
def utf16Length (s : String) : Nat :=
  s.data.foldl (fun n c => n + if c.toNat < 65536 then 1 else 2) 0

/-- startsWith over the model strings. -/
def strStartsWith (s p : String) : Bool := p.data.isPrefixOf s.data

/-- Containment over the model strings (JS String.includes). -/
def strContains (s pat : String) : Bool := containsSeq pat.data s.data

/-- Normalization step: prepend 0x when the prefix is missing. -/
def normalizeSignature (signature : String) : String :=
  if strStartsWith signature "0x" then signature else "0x" ++ signature

/-- The hex body: the normalized signature without its two-character 0x
prefix (JS slice 2; the prefix is ASCII, so code units coincide with
characters there). -/
def signatureBody (signature : String) : String :=
  ⟨(normalizeSignature signature).data.drop 2⟩

/-- Verify a signature and extract the signer address.  The personal-message
recovery is performed by the external ethers library, passed as `recover`.
The function rejects an empty signature outright, normalizes a missing 0x
prefix, rejects a hex body whose UTF-16 length differs from 130 with a message
naming both lengths, and otherwise forwards to recovery, prefixing a recovery
failure's message. -/
def verifySignatureAndGetAddress (recover : String → String → Except String String)
    (message signature : String) : Except String String :=
  if signature == "" then
    .error "Invalid signature: Signature is empty"
  else
    let normalizedSignature := normalizeSignature signature
    if utf16Length (signatureBody signature) != 130 then
      .error ("Invalid signature: Expected 130 hex characters, got "
        ++ toString (utf16Length (signatureBody signature)))
    else
      match recover message normalizedSignature with
      | .ok recoveredAddress => .ok recoveredAddress
      | .error e => .error ("Invalid signature: " ++ e)

/-! ### Upload dispatch — src/routes/device.ts, the upload route handler -/

/-- A parsed message/signature pair from the request body. -/
structure SigPayload where
  message : String
  signature : String
deriving Repr, DecidableEq

/-- The upload request after multipart parsing: the two routing flags, the
optional signature pair and whether a file accompanied the request. -/
structure UploadRequest where
  whistleblow : Bool
  bypassSignature : Bool
  signature : Option SigPayload
  hasFile : Bool
deriving Repr, DecidableEq

/-- Results of the external collaborators the handler consults, fixed per
request: the ethers recovery outcome, whether SERVER_SALT is configured,
whether derived-key validation succeeds, the custodial wallet address of the
derived key, and the Pinata, Arkiv and relay call outcomes. -/
structure Env where
  verifyOutcome : Except String String
  saltSet : Bool
  deriveOk : Bool
  walletAddress : String
  ipfsOutcome : Except String String
  arkivOutcome : Except String (String × String)
  xxOutcome : Except String XXNetworkResponse
deriving Repr

/-- Which identity the ledger path signs with. -/
inductive IdentityKind where
  | verified (addr : String)
  | placeholder
deriving Repr, DecidableEq

/-- The terminal responses of the upload handler. -/
inductive UploadResponse where
  | missingSignature
  | badSignatureFields
  | signatureVerifyFailed (msg : String)
  | missingDeviceAddress
  | configError
  | deriveFailed
  | relaySuccess (data : XXNetworkResponse)
  | relayFailed (msg : String)
  | ipfsFailed (msg : String)
  | missingServerKey
  | insufficientFunds (walletAddress : String)
  | arkivFailed (msg walletAddress : String)
  | ledgerSuccess (entityKey txHash : String) (ipfsHash : Option String)
deriving Repr, DecidableEq

/-- HTTP status the handler attaches to each terminal response. -/
def statusOf : UploadResponse → Nat
  | .missingSignature => 400
  | .badSignatureFields => 400
  | .signatureVerifyFailed _ => 401
  | .missingDeviceAddress => 400
  | .configError => 500
  | .deriveFailed => 500
  | .relaySuccess _ => 200
  | .relayFailed _ => 500
  | .ipfsFailed _ => 500
  | .missingServerKey => 400
  | .insufficientFunds _ => 402
  | .arkivFailed _ _ => 500
  | .ledgerSuccess _ _ _ => 200

/-- The responses issued before the record is stored: request validation,
signature verification, configuration and key-derivation failures. -/
def isValidationFailure : UploadResponse → Bool
  | .missingSignature => true
  | .badSignatureFields => true
  | .signatureVerifyFailed _ => true
  | .missingDeviceAddress => true
  | .configError => true
  | .deriveFailed => true
  | _ => false

/-- What one run of the handler did: the response, whether the record was
appended to chat storage before responding, how many times signature recovery,
the Arkiv create call and the relay subprocess were invoked, and the identity
the ledger path used. -/
structure HandlerResult where
  resp : UploadResponse
  stored : Bool
  verifyCalls : Nat
  arkivCalls : Nat
  xxCalls : Nat
  identity : Option IdentityKind
deriving Repr, DecidableEq

/-- Insufficient-balance phrasing test from the Arkiv error classifier. -/
def isInsufficientFundsMessage (msg : String) : Bool :=
  strContains msg "insufficient funds" || strContains msg "exceeds the balance"
    || strContains msg "balance of the account"

/-- The dispatch stage, entered right after storeChat (so every result here
carries stored = true): whistleblow requests go to the relay subprocess;
otherwise the optional file is pinned, the derived key is required, and the
entity is submitted to Arkiv, a submission failure being classified by its
message, with the custodial wallet address attached to both failure shapes. -/
def dispatchStage (req : UploadRequest) (env : Env) (identity : Option IdentityKind)
    (verifyCalls : Nat) : HandlerResult :=
  if req.whistleblow then
    match env.xxOutcome with
    | .ok d => ⟨.relaySuccess d, true, verifyCalls, 0, 1, identity⟩
    | .error e => ⟨.relayFailed e, true, verifyCalls, 0, 1, identity⟩
  else
    match (if req.hasFile then env.ipfsOutcome.map some
           else .ok none : Except String (Option String)) with
    | .error e => ⟨.ipfsFailed e, true, verifyCalls, 0, 0, identity⟩
    | .ok ipfsHash =>
      match identity with
      | none => ⟨.missingServerKey, true, verifyCalls, 0, 0, identity⟩
      | some _ =>
        match env.arkivOutcome with
        | .ok (entityKey, txHash) =>
          ⟨.ledgerSuccess entityKey txHash ipfsHash, true, verifyCalls, 1, 0, identity⟩
        | .error msg =>
          if isInsufficientFundsMessage msg then
            ⟨.insufficientFunds env.walletAddress, true, verifyCalls, 1, 0, identity⟩
          else
            ⟨.arkivFailed msg env.walletAddress, true, verifyCalls, 1, 0, identity⟩

/-- The key-derivation stage for non-whistleblow requests: require the
configured salt, derive and validate the custodial key, then dispatch. -/
def deriveStage (req : UploadRequest) (env : Env) (identity : IdentityKind)
    (verifyCalls : Nat) : HandlerResult :=
  if !env.saltSet then ⟨.configError, false, verifyCalls, 0, 0, some identity⟩
  else if !env.deriveOk then ⟨.deriveFailed, false, verifyCalls, 0, 0, some identity⟩
  else dispatchStage req env (some identity) verifyCalls

/-- The routing stage after field validation, mirroring the handler's
non-whistleblow block: the dev bypass takes the fixed placeholder identity
first, without consulting recovery; otherwise an attached signature is
verified; whistleblow requests skip identity work entirely. -/
def routeStage (req : UploadRequest) (env : Env) : HandlerResult :=
  if !req.whistleblow then
    if req.bypassSignature then
      deriveStage req env .placeholder 0
    else
      match req.signature with
      | some _ =>
        match env.verifyOutcome with
        | .error e => ⟨.signatureVerifyFailed e, false, 1, 0, 0, none⟩
        | .ok addr => deriveStage req env (.verified addr) 1
      | none => ⟨.missingDeviceAddress, false, 0, 0, 0, none⟩
  else dispatchStage req env none 0

/-- The upload handler: a non-whistleblow request without the dev bypass must
carry a signature pair with both fields non-empty, then routing proceeds. -/
def handleUpload (req : UploadRequest) (env : Env) : HandlerResult :=
  if !req.whistleblow && !req.bypassSignature then
    match req.signature with
    | none => ⟨.missingSignature, false, 0, 0, 0, none⟩
    | some s =>
      if s.message == "" || s.signature == "" then
        ⟨.badSignatureFields, false, 0, 0, 0, none⟩
      else routeStage req env
  else routeStage req env

/-! ### Device records and chat storage — src/utils/storage.ts -/

/-- The device record as constructed by the upload handler: required string
fields, optional location and storage payloads (numeric members modeled over
the integers; no claim concerns numeric formatting), and the tags list. -/
structure DeviceEntity where
  _id : String
  nodeId : String
  devicePub : String
  location : Option (Int × Int)
  lastSeen : String
  storage : Option (Nat × Nat)
  tags : List String
  text : String
deriving Repr, DecidableEq

/-- A stored chat: the entity spread plus the storage timestamp and the
whistleblow tag. -/
structure StoredChat extends DeviceEntity where
  timestamp : String
  whistleblow : Bool
deriving Repr, DecidableEq

/-- The in-memory store: the main chats map (association list in insertion
order, as a JS Map) and the whistleblow array. -/
structure ChatStorage where
  chats : List (String × StoredChat)
  whistleblowMessages : List StoredChat
deriving Repr, DecidableEq

/-- The storage a fresh process starts with. -/
def ChatStorage.empty : ChatStorage := ⟨[], []⟩

/-- JS Map.set: replace the value at an existing key in place, otherwise
append a new entry in insertion order. -/
def mapSet (m : List (String × StoredChat)) (k : String) (v : StoredChat) :
    List (String × StoredChat) :=
  if m.any (fun p => p.1 == k) then
    m.map (fun p => if p.1 == k then (k, v) else p)
  else m ++ [(k, v)]

/-- storeChat: build the stored record with the current timestamp, set it in
the main map under the entity id, and additionally append it to the
whistleblow array when flagged. -/
def ChatStorage.storeChat (st : ChatStorage) (entity : DeviceEntity)
    (whistleblow : Bool) (now : String) : ChatStorage :=
  let storedChat : StoredChat := ⟨entity, now, whistleblow⟩
  { chats := mapSet st.chats entity._id storedChat
    whistleblowMessages :=
      if whistleblow then st.whistleblowMessages ++ [storedChat]
      else st.whistleblowMessages }

/-- Snapshot of the main map's values. -/
def ChatStorage.getAllChats (st : ChatStorage) : List StoredChat :=
  st.chats.map (fun p => p.2)

/-- Snapshot of the whistleblow array. -/
def ChatStorage.getWhistleblowMessages (st : ChatStorage) : List StoredChat :=
  st.whistleblowMessages

/-- Lookup by record id in the main map. -/
def ChatStorage.getChatById (st : ChatStorage) (id : String) : Option StoredChat :=
  st.chats.lookup id

/-- Run a sequence of store operations. -/
def runStore (st : ChatStorage) : List (DeviceEntity × Bool × String) → ChatStorage
  | [] => st
  | (e, wb, now) :: ops => runStore (st.storeChat e wb now) ops

/-! ### Ledger entity construction — src/utils/arkiv.ts, uploadEntityToArkiv -/

/-- JSON values, as produced by JSON.stringify on the handler's objects. -/
inductive Json where
  | str (s : String)
  | num (n : Int)
  | bool (b : Bool)
  | arr (xs : List Json)
  | obj (fields : List (String × Json))

/-- Field lookup in a JSON object (first occurrence). -/
def Json.getField : Json → String → Option Json
  | .obj fields, k => fields.lookup k
  | _, _ => none

/-- JS truthiness of the optional ipfsHash argument: present and non-empty. -/
def ipfsTruthy : Option String → Bool
  | some h => h != ""
  | none => false

/-- The fields of JSON.stringify(entity), in the insertion order of the
handler's object literal; undefined optional members are omitted. -/
def entityFields (e : DeviceEntity) : List (String × Json) :=
  [("_id", .str e._id), ("nodeId", .str e.nodeId), ("devicePub", .str e.devicePub)]
  ++ (match e.location with
      | some (la, lo) => [("location", .obj [("lat", .num la), ("lon", .num lo)])]
      | none => [])
  ++ [("lastSeen", .str e.lastSeen)]
  ++ (match e.storage with
      | some (f, q) => [("storage", .obj [("freeBytes", .num (f : Int)),
                                          ("quota", .num (q : Int))])]
      | none => [])
  ++ [("tags", .arr (e.tags.map .str)), ("text", .str e.text)]

/-- The payload of the create call: the entity alone, or the entity spread
with the ipfsHash appended when the hash is truthy. -/
def payloadJson (e : DeviceEntity) (ipfsHash : Option String) : Json :=
  if ipfsTruthy ipfsHash then
    .obj (entityFields e ++ [("ipfsHash", .str (ipfsHash.getD ""))])
  else
    .obj (entityFields e)

/-- The attribute set of the create call, in construction order: the type
tag, devicePub and nodeId always; lat/lon when a location is present; the
comma-joined tags when nonempty; the ipfsHash when truthy. -/
def arkivAttributes (e : DeviceEntity) (ipfsHash : Option String) :
    List (String × String) :=
  [("type", "device-beacon"), ("devicePub", e.devicePub), ("nodeId", e.nodeId)]
  ++ (match e.location with
      | some (la, lo) => [("lat", toString la), ("lon", toString lo)]
      | none => [])
  ++ (if e.tags.isEmpty then [] else [("tags", String.intercalate "," e.tags)])
  ++ (if ipfsTruthy ipfsHash then [("ipfsHash", ipfsHash.getD "")] else [])

/-- The complete create call built by uploadEntityToArkiv: the serialized
record, the JSON content type, the attribute set and the one-year bound. -/
structure ArkivCreateCall where
  payload : Json
  contentType : String
  attributes : List (String × String)
  expiresIn : Nat

/-- uploadEntityToArkiv, up to the external createEntity submission. -/
def uploadEntityToArkiv (e : DeviceEntity) (ipfsHash : Option String) :
    ArkivCreateCall :=
  ⟨payloadJson e ipfsHash, "application/json", arkivAttributes e ipfsHash, 31536000⟩

/-! ### Custodial key derivation — src/utils/signature.ts,
generateServerWalletFromAddress.  The crypto primitive the source calls
(pbkdf2Sync with a SHA-256 core) is spelled out: SHA-256, HMAC, PBKDF2. -/

/-- Reduction to a 32-bit word. -/
def w32 (n : Nat) : Nat := n % 4294967296

/-- 32-bit right rotation of a word. -/
def rotr32 (k n : Nat) : Nat := n / 2 ^ k + n % 2 ^ k * 2 ^ (32 - k)

/-- SHA-256 round constants. -/
def shaK : List Nat :=
  [1116352408, 1899447441, 3049323471, 3921009573, 961987163,
   1508970993, 2453635748, 2870763221, 3624381080, 310598401,
   607225278, 1426881987, 1925078388, 2162078206, 2614888103,
   3248222580, 3835390401, 4022224774, 264347078, 604807628,
   770255983, 1249150122, 1555081692, 1996064986, 2554220882,
   2821834349, 2952996808, 3210313671, 3336571891, 3584528711,
   113926993, 338241895, 666307205, 773529912, 1294757372,
   1396182291, 1695183700, 1986661051, 2177026350, 2456956037,
   2730485921, 2820302411, 3259730800, 3345764771, 3516065817,
   3600352804, 4094571909, 275423344, 430227734, 506948616,
   659060556, 883997877, 958139571, 1322822218, 1537002063,
   1747873779, 1955562222, 2024104815, 2227730452, 2361852424,
   2428436474, 2756734187, 3204031479, 3329325298]

/-- The eight hash words; also the working variables of the compression. -/
structure Sha256State where
  a : Nat
  b : Nat
  c : Nat
  d : Nat
  e : Nat
  f : Nat
  g : Nat
  h : Nat

/-- SHA-256 initial hash value. -/
def shaInitState : Sha256State :=
  ⟨1779033703, 3144134277, 1013904242, 2773480762,
   1359893119, 2600822924, 528734635, 1541459225⟩

/-- Big-endian 4-byte groups to 32-bit words. -/
def bytesToWords : List Nat → List Nat
  | b0 :: b1 :: b2 :: b3 :: rest =>
    (b0 * 2 ^ 24 + b1 * 2 ^ 16 + b2 * 2 ^ 8 + b3) :: bytesToWords rest
  | _ => []

/-- Small sigma functions of the message schedule. -/
def sigma0 (x : Nat) : Nat := rotr32 7 x ^^^ rotr32 18 x ^^^ x / 2 ^ 3

/-- Second small sigma function. -/
def sigma1 (x : Nat) : Nat := rotr32 17 x ^^^ rotr32 19 x ^^^ x / 2 ^ 10

/-- Extend the 16-word schedule by the given number of words. -/
def extendSchedule (acc : List Nat) : Nat → List Nat
  | 0 => acc
  | n + 1 =>
    let t := w32 (sigma1 (acc.getD (acc.length - 2) 0) + acc.getD (acc.length - 7) 0
      + sigma0 (acc.getD (acc.length - 15) 0) + acc.getD (acc.length - 16) 0)
    extendSchedule (acc ++ [t]) n

/-- Big sigma functions of the compression. -/
def bigSigma0 (x : Nat) : Nat := rotr32 2 x ^^^ rotr32 13 x ^^^ rotr32 22 x

/-- Second big sigma function. -/
def bigSigma1 (x : Nat) : Nat := rotr32 6 x ^^^ rotr32 11 x ^^^ rotr32 25 x

/-- Choice function (the complement taken within 32 bits). -/
def chWord (x y z : Nat) : Nat := (x &&& y) ^^^ ((x ^^^ 4294967295) &&& z)

/-- Majority function. -/
def majWord (x y z : Nat) : Nat := (x &&& y) ^^^ (x &&& z) ^^^ (y &&& z)

/-- One compression round. -/
def compressRound (st : Sha256State) (k w : Nat) : Sha256State :=
  let t1 := w32 (st.h + bigSigma1 st.e + chWord st.e st.f st.g + k + w)
  let t2 := w32 (bigSigma0 st.a + majWord st.a st.b st.c)
  ⟨w32 (t1 + t2), st.a, st.b, st.c, w32 (st.d + t1), st.e, st.f, st.g⟩

/-- Wordwise modular sum of two states. -/
def addStates (x y : Sha256State) : Sha256State :=
  ⟨w32 (x.a + y.a), w32 (x.b + y.b), w32 (x.c + y.c), w32 (x.d + y.d),
   w32 (x.e + y.e), w32 (x.f + y.f), w32 (x.g + y.g), w32 (x.h + y.h)⟩

/-- Process one 64-byte block. -/
def processBlock (st : Sha256State) (block : List Nat) : Sha256State :=
  let ws := extendSchedule (bytesToWords block) 48
  let compressed := (shaK.zip ws).foldl (fun s kw => compressRound s kw.1 kw.2) st
  addStates st compressed

/-- Split a byte list into 64-byte chunks. -/
def chunks64 : List Nat → List (List Nat)
  | [] => []
  | b :: rest => ((b :: rest).take 64) :: chunks64 ((b :: rest).drop 64)
termination_by l => l.length
decreasing_by simp [List.length_drop]; omega

/-- Big-endian 8-byte encoding. -/
def be64 (n : Nat) : List Nat :=
  [n / 2 ^ 56 % 256, n / 2 ^ 48 % 256, n / 2 ^ 40 % 256, n / 2 ^ 32 % 256,
   n / 2 ^ 24 % 256, n / 2 ^ 16 % 256, n / 2 ^ 8 % 256, n % 256]

/-- Big-endian 4-byte encoding. -/
def be32 (n : Nat) : List Nat :=
  [n / 2 ^ 24 % 256, n / 2 ^ 16 % 256, n / 2 ^ 8 % 256, n % 256]

/-- SHA-256 padding: the 0x80 marker, zeros to 56 mod 64, the bit length. -/
def padMessage (msg : List Nat) : List Nat :=
  let zeros := (120 - (msg.length + 1) % 64) % 64
  msg ++ [128] ++ List.replicate zeros 0 ++ be64 (msg.length * 8)

/-- The SHA-256 digest of a byte list, as 32 bytes. -/
def sha256 (msg : List Nat) : List Nat :=
  let st := (chunks64 (padMessage msg)).foldl processBlock shaInitState
  be32 st.a ++ be32 st.b ++ be32 st.c ++ be32 st.d
    ++ be32 st.e ++ be32 st.f ++ be32 st.g ++ be32 st.h

/-- HMAC-SHA256 with the standard 64-byte block padding of the key. -/
def hmacSha256 (key msg : List Nat) : List Nat :=
  let key1 := if key.length > 64 then sha256 key else key
  let key0 := key1 ++ List.replicate (64 - key1.length) 0
  sha256 (key0.map (fun b => b ^^^ 92) ++ sha256 (key0.map (fun b => b ^^^ 54) ++ msg))

/-- The U-chain of one PBKDF2 block: iterate the PRF and XOR into the
accumulator the given number of times. -/
def pbkdf2Inner (pw : List Nat) : Nat → List Nat → List Nat → List Nat
  | 0, _, acc => acc
  | n + 1, u, acc =>
    let u' := hmacSha256 pw u
    pbkdf2Inner pw n u' (List.zipWith Nat.xor acc u')

/-- One PBKDF2 output block. -/
def pbkdf2Block (pw salt : List Nat) (c i : Nat) : List Nat :=
  let u1 := hmacSha256 pw (salt ++ be32 i)
  pbkdf2Inner pw (c - 1) u1 u1

/-- PBKDF2 with the HMAC-SHA256 PRF. -/
def pbkdf2Sha256 (pw salt : List Nat) (c dkLen : Nat) : List Nat :=
  (((List.range ((dkLen + 31) / 32)).map
    (fun i => pbkdf2Block pw salt c (i + 1))).flatten).take dkLen

/-- UTF-8 bytes of a string (Node buffers strings as UTF-8). -/
def strUtf8 (s : String) : List Nat := s.toUTF8.toList.map (fun b => b.toNat)

/-- One lowercase hex digit. -/
def hexDigitChar (n : Nat) : Char :=
  if n < 10 then Char.ofNat (48 + n) else Char.ofNat (87 + n)

/-- Two hex digits of one byte. -/
def byteToHexChars (b : Nat) : List Char := [hexDigitChar (b / 16), hexDigitChar (b % 16)]

/-- Lowercase hex rendering of a byte list (Node Buffer.toString hex). -/
def bytesToHex (bs : List Nat) : String :=
  ⟨bs.foldr (fun b acc => byteToHexChars b ++ acc) []⟩

/-- JS String.toLowerCase, modeled on the basic-latin mapping (device
addresses are ASCII hex strings). -/
def toLowerCase (s : String) : String := ⟨s.data.map Char.toLower⟩

/-- generateServerWalletFromAddress: normalize the device address to
lowercase, derive 32 bytes with PBKDF2-HMAC-SHA256 over 100000 iterations
using the address as password and the server salt as salt, and render the
result as a 0x-prefixed hex private key.  The final wallet validation is
performed by the external ethers library and does not alter the returned
key. -/
def generateServerWalletFromAddress (deviceAddress serverSalt : String) : String :=
  let normalizedAddress := toLowerCase deviceAddress
  let derivedKey :=
    pbkdf2Sha256 (strUtf8 normalizedAddress) (strUtf8 serverSalt) 100000 32
  "0x" ++ bytesToHex derivedKey


/-! ## Claims -/

/-! ### C1 — relay outcome classification -/

/-- Parsing of an empty combined capture extracts nothing. -/
theorem parse_empty_combined : parseXXNetworkOutput ("" ++ "\n" ++ "") = XXNetworkResponse.init := by
  decide

/-- C1 counterexample: a bare DMPUBKEY label line extracts an empty-string
peerPubKey value; the claim counts any extraction as data and demands success
regardless of the timeout, but the program's truthiness tests treat the empty
extraction as absent, so a timed-out run whose only capture is that line
raises the timed-out-without-data error instead of succeeding. -/
theorem relay_truthiness_claim_counterexample :
    (parseXXNetworkOutput ("DMPUBKEY:" ++ "\n" ++ "")).dmPubKey = some ""
    ∧ sendToXXNetwork (.failure "ETIMEDOUT" "timed out" "DMPUBKEY:" "")
        = .error (.timeoutNoData "xx-network command timed out without receiving any data")
    ∧ sendToXXNetwork (.failure "ETIMEDOUT" "timed out" "DMPUBKEY:" "")
        ≠ .ok (parseXXNetworkOutput ("DMPUBKEY:" ++ "\n" ++ "")) := by decide

/-- C1 (amended): the relay outcome classification rule, with extraction read
as a truthy (non-empty) value.  A clean exit returns the parsed combined
output.  On a rejected wait: if at least one of a non-empty dmPubKey, a
nonempty messageIds, or a non-empty userReceptionID was extracted from the
captured combined output, the call is a success regardless of the error code
(so in particular on a timeout); an ETIMEDOUT wait with none of those three
raises the timeout error; a non-timeout rejection with no captured stdout or
stderr at all raises the execution error.  In particular a timed-out
invocation whose output is the single line with message id id1 and round 7 is
a success with messageIds = [id1] and roundIds = [7]. -/
theorem relay_outcome_classification :
    (∀ stdout stderr : String,
      sendToXXNetwork (.success stdout stderr)
        = .ok (parseXXNetworkOutput (stdout ++ "\n" ++ stderr))) ∧
    (∀ code errMsg stdout stderr : String,
      fieldTruthy (parseXXNetworkOutput (stdout ++ "\n" ++ stderr)).dmPubKey = true
        ∨ (parseXXNetworkOutput (stdout ++ "\n" ++ stderr)).messageIds ≠ []
        ∨ fieldTruthy (parseXXNetworkOutput (stdout ++ "\n" ++ stderr)).userReceptionID
            = true →
      sendToXXNetwork (.failure code errMsg stdout stderr)
        = .ok (parseXXNetworkOutput (stdout ++ "\n" ++ stderr))) ∧
    (∀ errMsg stdout stderr : String,
      fieldTruthy (parseXXNetworkOutput (stdout ++ "\n" ++ stderr)).dmPubKey = false →
      (parseXXNetworkOutput (stdout ++ "\n" ++ stderr)).messageIds = [] →
      fieldTruthy (parseXXNetworkOutput (stdout ++ "\n" ++ stderr)).userReceptionID
          = false →
      sendToXXNetwork (.failure "ETIMEDOUT" errMsg stdout stderr)
        = .error (.timeoutNoData "xx-network command timed out without receiving any data")) ∧
    (∀ code errMsg : String, code ≠ "ETIMEDOUT" →
      sendToXXNetwork (.failure code errMsg "" "")
        = .error (.processError ("Failed to execute xx-network command: " ++ errMsg))) ∧
    (sendToXXNetwork (.failure "ETIMEDOUT" "timed out" "DM Send: id1, 7," "")
        = .ok (parseXXNetworkOutput ("DM Send: id1, 7," ++ "\n" ++ ""))
      ∧ (parseXXNetworkOutput ("DM Send: id1, 7," ++ "\n" ++ "")).messageIds = ["id1"]
      ∧ (parseXXNetworkOutput ("DM Send: id1, 7," ++ "\n" ++ "")).roundIds = [7]) := by
  refine ⟨fun _ _ => rfl, ?_, ?_, ?_, by decide⟩
  · intro code errMsg stdout stderr h
    rcases h with h | h | h <;>
      simp [sendToXXNetwork, h, List.isEmpty_iff]
  · intro errMsg stdout stderr h1 h2 h3
    simp [sendToXXNetwork, h1, h2, h3, List.isEmpty_iff]
  · intro code errMsg hne
    simp [sendToXXNetwork, hne]
    decide

/-- Spot check of C1: a non-zero-exit rejection whose capture holds only a
non-empty reception id is a success; an ETIMEDOUT rejection with empty
capture raises the timeout error; a non-timeout rejection with empty capture
raises the execution error. -/
theorem relay_outcome_classification_spot :
    sendToXXNetwork (.failure "1" "exit 1" "User ReceptionID: abc" "")
      = .ok (parseXXNetworkOutput ("User ReceptionID: abc" ++ "\n" ++ ""))
    ∧ sendToXXNetwork (.failure "ETIMEDOUT" "timed out" "" "")
      = .error (.timeoutNoData "xx-network command timed out without receiving any data")
    ∧ sendToXXNetwork (.failure "9" "spawn failed" "" "")
      = .error (.processError ("Failed to execute xx-network command: " ++ "spawn failed")) :=
  ⟨relay_outcome_classification.2.1 "1" "exit 1" _ "" (by decide),
   relay_outcome_classification.2.2.1 "timed out" "" "" (by decide) (by decide) (by decide),
   relay_outcome_classification.2.2.2.1 "9" "spawn failed" (by decide)⟩

/-! ### C8 — receivedCount -/

/-- C8 counterexample: a line that starts with the DMPUBKEY label and also
contains the received marker is consumed by the labeled-field branch; the
parser leaves receivedCount at 0 while the claim's per-line rule counts 1. -/
theorem received_count_claim_counterexample :
    (parseXXNetworkOutput "DMPUBKEY: x Message received").receivedMessages = 0
    ∧ claimRecvCount "DMPUBKEY: x Message received" = 1
    ∧ (parseXXNetworkOutput "DMPUBKEY: x Message received").receivedMessages
      ≠ claimRecvCount "DMPUBKEY: x Message received" := by decide

/-- Per line, the parser's effect on receivedCount is the counter step. -/
theorem processLine_receivedMessages (r : XXNetworkResponse) (line : List Char) :
    (processLine r line).receivedMessages = recvStep r.receivedMessages line := by
  unfold processLine recvStep
  split_ifs <;> first
    | rfl
    | (dsimp only; split <;> rfl)
    | (rcases dmSendMatch line with _ | ⟨mi, ri⟩ <;> rfl)
    | (rcases receivedMatch line with _ | k <;> rfl)

/-- The receivedCount of a fold is the fold of the counter steps. -/
theorem foldl_receivedMessages (lines : List (List Char)) :
    ∀ r : XXNetworkResponse,
      ((lines.foldl processLine r).receivedMessages)
        = lines.foldl recvStep r.receivedMessages := by
  induction lines with
  | nil => intro r; rfl
  | cons l ls ih =>
    intro r
    simp only [List.foldl_cons, ih, processLine_receivedMessages]

/-- C8 (amended): the parser's receivedCount equals the per-line fold in
which a line captured by one of the earlier labeled-field branches leaves the
counter untouched, a remaining line containing the received marker increments
it, and a remaining line matching the received-summary pattern sets it. -/
theorem received_count_projection (output : String) :
    (parseXXNetworkOutput output).receivedMessages = recvCount output :=
  foldl_receivedMessages (splitNl output.data) XXNetworkResponse.init

/-! ### C3 — signature format check -/

/-- C3 counterexample: the empty signature string has a hex body of length 0
after normalization, yet the verifier rejects it with the empty-signature
message, which states neither the expected length nor the actual one. -/
theorem signature_format_claim_counterexample :
    utf16Length (signatureBody "") ≠ 130
    ∧ verifySignatureAndGetAddress (fun _ _ => .error "unreachable") "m" ""
        = .error "Invalid signature: Signature is empty"
    ∧ strContains "Invalid signature: Signature is empty" "130" = false
    ∧ strContains "Invalid signature: Signature is empty" "0" = false :=
  ⟨by decide, rfl, by decide, by decide⟩

/-- C3 (amended): for every non-empty signature string, if the hex body after
0x-normalization is not exactly 130 UTF-16 units long, the verifier fails
with the message naming the expected length 130 and the actual length, and no
recovery is attempted — the outcome is independent of the recovery oracle. -/
theorem signature_format_check (recover : String → String → Except String String)
    (message signature : String) (hne : signature ≠ "")
    (hlen : utf16Length (signatureBody signature) ≠ 130) :
    verifySignatureAndGetAddress recover message signature
      = .error ("Invalid signature: Expected 130 hex characters, got "
        ++ toString (utf16Length (signatureBody signature))) := by
  unfold verifySignatureAndGetAddress
  simp [hne, hlen]

set_option maxRecDepth 8000 in
/-- Spot check of C3: a 128-character hex body is rejected with the message
naming 130 and 128. -/
theorem signature_format_check_spot :
    verifySignatureAndGetAddress (fun _ _ => .ok "0xAddress") "m"
        (String.mk (List.replicate 128 'a'))
      = .error ("Invalid signature: Expected 130 hex characters, got "
        ++ toString (utf16Length (signatureBody (String.mk (List.replicate 128 'a')))))
    ∧ utf16Length (signatureBody (String.mk (List.replicate 128 'a'))) = 128 :=
  ⟨signature_format_check _ "m" _ (by decide) (by decide), by decide⟩

/-! ### C2 — dispatch decision table -/

/-- C2 counterexample: a non-whistleblow request carrying a signature with
the dev bypass enabled is routed to the ledger path under the fixed
placeholder identity, and signature recovery is never invoked (even though
the environment would reject the signature), contradicting the table row that
says a present signature is verified under any bypass value. -/
theorem dispatch_table_claim_counterexample :
    handleUpload ⟨false, true, some ⟨"m", "sig"⟩, false⟩
        ⟨.error "invalid signature", true, true, "0xW", .ok "h", .ok ("ek", "tx"), .ok .init⟩
      = ⟨.ledgerSuccess "ek" "tx" none, true, 0, 1, 0, some .placeholder⟩ := by decide

/-- C2 (amended): the dispatch decision table, with the dev bypass taking
precedence over signature verification.  whistleblow requests take the relay
path with recovery never consulted; non-whistleblow requests with the bypass
use the placeholder identity without consulting recovery and dispatch to the
ledger side; non-whistleblow requests without the bypass and with a
well-formed signature consult recovery exactly once, fail with 401 on a
recovery error and otherwise dispatch to the ledger side under the verified
identity; non-whistleblow requests with neither signature nor bypass fail
with MissingSignature (400) before any backend call. -/
theorem dispatch_decision_table (req : UploadRequest) (env : Env) :
    (req.whistleblow = true →
      (handleUpload req env).verifyCalls = 0 ∧ (handleUpload req env).xxCalls = 1
        ∧ (handleUpload req env).arkivCalls = 0 ∧ (handleUpload req env).stored = true) ∧
    (req.whistleblow = false → req.bypassSignature = true →
      env.saltSet = true → env.deriveOk = true →
      (handleUpload req env).identity = some .placeholder
        ∧ (handleUpload req env).verifyCalls = 0
        ∧ (handleUpload req env).xxCalls = 0
        ∧ (handleUpload req env).stored = true) ∧
    (∀ s : SigPayload, req.whistleblow = false → req.bypassSignature = false →
      req.signature = some s → s.message ≠ "" → s.signature ≠ "" →
      (handleUpload req env).verifyCalls = 1
        ∧ (∀ e, env.verifyOutcome = .error e →
            (handleUpload req env).resp = .signatureVerifyFailed e
              ∧ statusOf (handleUpload req env).resp = 401)
        ∧ (∀ addr, env.verifyOutcome = .ok addr →
            env.saltSet = true → env.deriveOk = true →
            (handleUpload req env).identity = some (.verified addr)
              ∧ (handleUpload req env).xxCalls = 0
              ∧ (handleUpload req env).stored = true)) ∧
    (req.whistleblow = false → req.bypassSignature = false → req.signature = none →
      handleUpload req env = ⟨.missingSignature, false, 0, 0, 0, none⟩
        ∧ statusOf .missingSignature = 400) := by
  obtain ⟨wb, bp, sig, hf⟩ := req
  refine ⟨?_, ?_, ?_, ?_⟩
  · rintro rfl
    cases hxx : env.xxOutcome <;>
      simp [handleUpload, routeStage, dispatchStage, hxx]
  · rintro rfl rfl hsalt hderive
    cases hf <;> cases hipfs : env.ipfsOutcome <;> cases hark : env.arkivOutcome <;>
      simp [handleUpload, routeStage, deriveStage, dispatchStage, hsalt, hderive,
        hipfs, hark, Except.map, apply_ite]
  · rintro s rfl rfl rfl hm hs
    have hm' : (s.message == "") = false := by simp [hm]
    have hs' : (s.signature == "") = false := by simp [hs]
    refine ⟨?_, ?_, ?_⟩
    · cases hv : env.verifyOutcome <;> cases hsalt : env.saltSet <;>
        cases hd : env.deriveOk <;> cases hf <;> cases hipfs : env.ipfsOutcome <;>
        cases hark : env.arkivOutcome <;>
        simp [handleUpload, routeStage, deriveStage, dispatchStage, hm', hs',
          hv, hsalt, hd, hipfs, hark, Except.map, apply_ite]
    · rintro e he
      simp [handleUpload, routeStage, hm', hs', he, statusOf]
    · rintro addr haddr hsalt hderive
      cases hf <;> cases hipfs : env.ipfsOutcome <;> cases hark : env.arkivOutcome <;>
        simp [handleUpload, routeStage, deriveStage, dispatchStage, hm', hs',
          haddr, hsalt, hderive, hipfs, hark, Except.map, apply_ite]
  · rintro rfl rfl rfl
    exact ⟨rfl, rfl⟩

/-- Spot check of C2: a well-formed non-whistleblow, non-bypass request with
a successfully verifying signature consults recovery once and dispatches on
the ledger side under the verified identity. -/
theorem dispatch_decision_table_spot :
    (handleUpload ⟨false, false, some ⟨"m", "s"⟩, false⟩
        ⟨.ok "0xA", true, true, "0xW", .ok "h", .ok ("ek", "tx"), .ok .init⟩).verifyCalls = 1
    ∧ (handleUpload ⟨false, false, some ⟨"m", "s"⟩, false⟩
        ⟨.ok "0xA", true, true, "0xW", .ok "h", .ok ("ek", "tx"), .ok .init⟩).identity
      = some (.verified "0xA") := by
  obtain ⟨-, -, h3, -⟩ := dispatch_decision_table ⟨false, false, some ⟨"m", "s"⟩, false⟩
    ⟨.ok "0xA", true, true, "0xW", .ok "h", .ok ("ek", "tx"), .ok .init⟩
  obtain ⟨h1, -, h2⟩ := h3 ⟨"m", "s"⟩ rfl rfl rfl (by decide) (by decide)
  exact ⟨h1, (h2 "0xA" rfl rfl rfl).1⟩

/-! ### C4 — record log append -/

/-- C4 counterexample: a non-whistleblow request with neither signature nor
bypass reaches its terminal Failed response (MissingSignature, 400) without
any record having been appended to chat storage. -/
theorem log_append_claim_counterexample :
    (handleUpload ⟨false, false, none, false⟩
        ⟨.ok "0xA", true, true, "0xW", .ok "h", .ok ("ek", "tx"), .ok .init⟩).stored = false
    ∧ statusOf (handleUpload ⟨false, false, none, false⟩
        ⟨.ok "0xA", true, true, "0xW", .ok "h", .ok ("ek", "tx"), .ok .init⟩).resp = 400 := by
  decide

/-- C4 (amended): a record is appended to chat storage exactly when the
request passes validation, signature verification, configuration and key
derivation — every terminal outcome of the dispatch itself (relay success or
failure, pinning failure, ledger success, insufficient funds or submission
failure) is appended before the response, while the validation-stage
failures return without appending. -/
theorem log_append_iff_dispatched (req : UploadRequest) (env : Env) :
    (handleUpload req env).stored
      = !isValidationFailure (handleUpload req env).resp := by
  obtain ⟨wb, bp, sig, hf⟩ := req
  unfold handleUpload routeStage deriveStage dispatchStage
  dsimp only
  (repeat' split) <;> rfl

/-! ### C6 — ledger submission error classification -/

/-- The dispatch stage consults the create call at most once and classifies
a failed submission by its message. -/
theorem dispatchStage_arkiv_error (req : UploadRequest) (env : Env)
    (id : Option IdentityKind) (vc : Nat) (msg : String)
    (harkiv : env.arkivOutcome = .error msg) :
    (dispatchStage req env id vc).arkivCalls ≤ 1 ∧
    ((dispatchStage req env id vc).arkivCalls = 1 →
      isInsufficientFundsMessage msg = true →
      (dispatchStage req env id vc).resp = .insufficientFunds env.walletAddress
        ∧ statusOf (dispatchStage req env id vc).resp = 402) ∧
    ((dispatchStage req env id vc).arkivCalls = 1 →
      isInsufficientFundsMessage msg = false →
      (dispatchStage req env id vc).resp = .arkivFailed msg env.walletAddress
        ∧ statusOf (dispatchStage req env id vc).resp = 500) := by
  unfold dispatchStage
  cases hwb : req.whistleblow
  · cases hhf : req.hasFile <;> cases hipfs : env.ipfsOutcome <;>
      rcases id with _ | id <;>
      simp [harkiv, hipfs, Except.map] <;> split_ifs <;> simp_all [statusOf]
  · cases hxx : env.xxOutcome <;> simp [hxx]

/-- C6: when the Arkiv submission fails, the create call is attempted at most
once (no retry), and whenever it was attempted, the failure is classified by
its message: insufficient-balance phrasing yields the 402 insufficient-funds
response carrying the custodial wallet address, anything else the 500
submission-failure response (also carrying the wallet address). -/
theorem arkiv_error_classification (req : UploadRequest) (env : Env) (msg : String)
    (harkiv : env.arkivOutcome = .error msg) :
    (handleUpload req env).arkivCalls ≤ 1 ∧
    ((handleUpload req env).arkivCalls = 1 →
      isInsufficientFundsMessage msg = true →
      (handleUpload req env).resp = .insufficientFunds env.walletAddress
        ∧ statusOf (handleUpload req env).resp = 402) ∧
    ((handleUpload req env).arkivCalls = 1 →
      isInsufficientFundsMessage msg = false →
      (handleUpload req env).resp = .arkivFailed msg env.walletAddress
        ∧ statusOf (handleUpload req env).resp = 500) := by
  obtain ⟨wb, bp, sig, hf⟩ := req
  unfold handleUpload routeStage deriveStage
  dsimp only
  (repeat' split) <;> first
    | exact dispatchStage_arkiv_error _ env _ _ msg harkiv
    | simp

/-- Spot check of C6: a message with insufficient-balance phrasing produces
the 402 response with the wallet address; a generic failure produces the 500
response. -/
theorem arkiv_error_classification_spot :
    (handleUpload ⟨false, true, none, false⟩
        ⟨.ok "0xA", true, true, "0xW", .ok "h",
         .error "tx cost exceeds the balance of the account", .ok .init⟩).resp
      = .insufficientFunds "0xW"
    ∧ (handleUpload ⟨false, true, none, false⟩
        ⟨.ok "0xA", true, true, "0xW", .ok "h", .error "nonce too low", .ok .init⟩).resp
      = .arkivFailed "nonce too low" "0xW" := by
  constructor
  · obtain ⟨-, h2, -⟩ := arkiv_error_classification ⟨false, true, none, false⟩
      ⟨.ok "0xA", true, true, "0xW", .ok "h",
       .error "tx cost exceeds the balance of the account", .ok .init⟩
      "tx cost exceeds the balance of the account" rfl
    exact (h2 (by decide) (by decide)).1
  · obtain ⟨-, -, h3⟩ := arkiv_error_classification ⟨false, true, none, false⟩
      ⟨.ok "0xA", true, true, "0xW", .ok "h", .error "nonce too low", .ok .init⟩
      "nonce too low" rfl
    exact (h3 (by decide) (by decide)).1

/-! ### C5 — content identifier round-trip -/

/-- Association lookup skips a block in which the key does not occur. -/
theorem lookup_append_of_none {β : Type _} {l1 l2 : List (String × β)} {k : String}
    (h : l1.lookup k = none) : (l1 ++ l2).lookup k = l2.lookup k := by
  rw [List.lookup_append, h, Option.none_or]

/-- The serialized entity never carries an ipfsHash member of its own. -/
theorem entityFields_lookup_ipfsHash (e : DeviceEntity) :
    (entityFields e).lookup "ipfsHash" = none := by
  unfold entityFields
  cases hloc : e.location <;> cases hst : e.storage <;>
    simp [List.lookup]

/-- Without a truthy hash, the attribute set has no ipfsHash key. -/
theorem arkivAttributes_none_lookup (e : DeviceEntity) :
    (arkivAttributes e none).lookup "ipfsHash" = none := by
  unfold arkivAttributes ipfsTruthy
  cases hloc : e.location <;> by_cases ht : e.tags.isEmpty <;>
    simp [List.lookup, ht]

/-- C5 counterexample: an empty content identifier returned by the pinning
call is falsy in JS, so it is neither merged into the payload nor added to
the attribute set — the published entity carries no trace of it. -/
theorem payload_cid_claim_counterexample :
    Json.getField (uploadEntityToArkiv ⟨"i", "n", "d", none, "ls", none, [], "t"⟩
        (some "")).payload "ipfsHash" = none
    ∧ (uploadEntityToArkiv ⟨"i", "n", "d", none, "ls", none, [], "t"⟩
        (some "")).attributes.lookup "ipfsHash" = none
    ∧ Json.getField (uploadEntityToArkiv ⟨"i", "n", "d", none, "ls", none, [], "t"⟩
        (some "")).payload "ipfsHash" ≠ some (.str "") :=
  ⟨rfl, rfl, fun h => Option.noConfusion h⟩

/-- C5 (amended): for every entity and non-empty content identifier, the
identifier handed to the publisher is merged into the payload (decoding the
payload object at the ipfsHash key gives back exactly that identifier) and
appears in the attribute set; without a hash the payload has no such field
and the attribute set no such key. -/
theorem payload_cid_roundtrip (e : DeviceEntity) (cid : String) (hne : cid ≠ "") :
    Json.getField (uploadEntityToArkiv e (some cid)).payload "ipfsHash"
      = some (.str cid)
    ∧ ("ipfsHash", cid) ∈ (uploadEntityToArkiv e (some cid)).attributes
    ∧ Json.getField (uploadEntityToArkiv e none).payload "ipfsHash" = none
    ∧ (uploadEntityToArkiv e none).attributes.lookup "ipfsHash" = none := by
  have htr : ipfsTruthy (some cid) = true := by simp [ipfsTruthy, hne]
  refine ⟨?_, ?_, ?_, arkivAttributes_none_lookup e⟩
  · show Json.getField (payloadJson e (some cid)) "ipfsHash" = _
    unfold payloadJson
    rw [htr]
    simp only [if_true, Json.getField]
    rw [lookup_append_of_none (entityFields_lookup_ipfsHash e)]
    simp [List.lookup]
  · show _ ∈ arkivAttributes e (some cid)
    unfold arkivAttributes
    simp [htr]
  · show Json.getField (payloadJson e none) "ipfsHash" = none
    unfold payloadJson
    simp [ipfsTruthy, Json.getField, entityFields_lookup_ipfsHash e]

/-- Spot check of C5: a concrete hash round-trips through the payload and
appears in the attributes. -/
theorem payload_cid_roundtrip_spot :
    Json.getField (uploadEntityToArkiv ⟨"i", "n", "d", none, "ls", none, [], "t"⟩
        (some "QmHash")).payload "ipfsHash" = some (.str "QmHash")
    ∧ ("ipfsHash", "QmHash") ∈ (uploadEntityToArkiv ⟨"i", "n", "d", none, "ls", none, [], "t"⟩
        (some "QmHash")).attributes :=
  ⟨(payload_cid_roundtrip _ "QmHash" (by decide)).1,
   (payload_cid_roundtrip _ "QmHash" (by decide)).2.1⟩

/-! ### C7 — deterministic key derivation -/

/-- The SHA-256 digest is 32 bytes. -/
theorem sha256_length (msg : List Nat) : (sha256 msg).length = 32 := rfl

/-- HMAC-SHA256 output is 32 bytes. -/
theorem hmacSha256_length (key msg : List Nat) : (hmacSha256 key msg).length = 32 :=
  sha256_length _

/-- The U-chain preserves the 32-byte accumulator. -/
theorem pbkdf2Inner_length (pw : List Nat) :
    ∀ (n : Nat) (u acc : List Nat), acc.length = 32 →
      (pbkdf2Inner pw n u acc).length = 32 := by
  intro n
  induction n with
  | zero => intro u acc h; exact h
  | succ n ih =>
    intro u acc h
    unfold pbkdf2Inner
    apply ih
    rw [List.length_zipWith, h, hmacSha256_length]
    simp

/-- Each PBKDF2 block is 32 bytes. -/
theorem pbkdf2Block_length (pw salt : List Nat) (c i : Nat) :
    (pbkdf2Block pw salt c i).length = 32 :=
  pbkdf2Inner_length pw (c - 1) _ _ (hmacSha256_length _ _)

/-- A 32-byte PBKDF2 derivation is 32 bytes long. -/
theorem pbkdf2_dk32_length (pw salt : List Nat) (c : Nat) :
    (pbkdf2Sha256 pw salt c 32).length = 32 := by
  unfold pbkdf2Sha256
  have h1 : List.range ((32 + 31) / 32) = [0] := rfl
  rw [h1]
  simp [List.length_take, pbkdf2Block_length]

/-- Hex rendering doubles the length. -/
theorem foldrHex_length (bs : List Nat) :
    (bs.foldr (fun b acc => byteToHexChars b ++ acc) []).length = 2 * bs.length := by
  induction bs with
  | nil => rfl
  | cons b tl ih =>
    rw [List.foldr_cons, List.length_append, ih]
    simp [byteToHexChars]
    omega

/-- String length of the hex rendering. -/
theorem bytesToHex_length (bs : List Nat) : (bytesToHex bs).length = 2 * bs.length := by
  unfold bytesToHex String.length
  exact foldrHex_length bs

/-- C7: the identity derivation is deterministic — it is a pure function of
the device address and the server salt alone (two calls with the same inputs
produce the same output; the definition consults no other state), the derived
key material is exactly 32 bytes, and the returned private key is its
0x-prefixed 64-digit hex rendering. -/
theorem derive_deterministic (a s : String) :
    generateServerWalletFromAddress a s = generateServerWalletFromAddress a s
    ∧ (pbkdf2Sha256 (strUtf8 (toLowerCase a)) (strUtf8 s) 100000 32).length = 32
    ∧ ∃ hex : String, generateServerWalletFromAddress a s = "0x" ++ hex
        ∧ hex.length = 64 := by
  refine ⟨rfl, pbkdf2_dk32_length _ _ _,
    ⟨bytesToHex (pbkdf2Sha256 (strUtf8 (toLowerCase a)) (strUtf8 s) 100000 32), rfl, ?_⟩⟩
  rw [bytesToHex_length, pbkdf2_dk32_length]

/-! ### C9 — case-insensitive derivation -/

/-- Basic-latin lowercasing is idempotent at the character level. -/
theorem charToLower_idem (c : Char) : c.toLower.toLower = c.toLower := by
  have hdef : ∀ d : Char,
      d.toLower = if d.toNat ≥ 65 ∧ d.toNat ≤ 90 then Char.ofNat (d.toNat + 32) else d :=
    fun _ => rfl
  by_cases h : c.toNat ≥ 65 ∧ c.toNat ≤ 90
  · rw [hdef c, if_pos h, hdef _, if_neg]
    have hv : (c.toNat + 32).isValidChar := Or.inl (by omega)
    have ht : (Char.ofNat (c.toNat + 32)).toNat = c.toNat + 32 := by
      rw [Char.ofNat, dif_pos hv]; rfl
    rw [ht]; omega
  · have h1 : c.toLower = c := by rw [hdef c, if_neg h]
    rw [h1, h1]

/-- Lowercasing a character list twice equals lowercasing it once. -/
theorem map_toLower_idem (l : List Char) :
    (l.map Char.toLower).map Char.toLower = l.map Char.toLower := by
  induction l with
  | nil => rfl
  | cons c tl ih => simp [charToLower_idem c, ih]

/-- The string-level lowercasing is idempotent. -/
theorem toLowerCase_idem (s : String) : toLowerCase (toLowerCase s) = toLowerCase s := by
  unfold toLowerCase
  exact congrArg String.mk (map_toLower_idem s.data)

/-- C9: identity derivation is case-insensitive in the device address — the
address is normalized to lowercase before the PBKDF2 key stretch, so deriving
from an address and from its lowercased form yields the same private key. -/
theorem derive_lowercase_invariant (a s : String) :
    generateServerWalletFromAddress a s
      = generateServerWalletFromAddress (toLowerCase a) s := by
  unfold generateServerWalletFromAddress
  rw [toLowerCase_idem]

/-! ### C10 — chat storage views -/

/-- Replacing under an existing key makes that key resolve to the new value. -/
theorem lookup_mapSet_replace (m : List (String × StoredChat)) (k : String)
    (v : StoredChat) (h : m.any (fun p => p.1 == k) = true) :
    (m.map (fun p => if p.1 == k then (k, v) else p)).lookup k = some v := by
  induction m with
  | nil => simp at h
  | cons p tl ih =>
    rcases p with ⟨k0, v0⟩
    by_cases hk : k0 = k
    · subst hk
      have hhead : (if (k0 == k0) = true then (k0, v) else (k0, v0)) = (k0, v) :=
        if_pos (beq_self_eq_true k0)
      rw [List.map_cons, hhead]
      exact List.lookup_cons_self
    · have hb : (k0 == k) = false := beq_false_of_ne hk
      have hb2 : (k == k0) = false := beq_false_of_ne (Ne.symm hk)
      have hany : tl.any (fun p => p.1 == k) = true := by
        simpa [List.any_cons, hb] using h
      have hhead : (if (k0 == k) = true then (k, v) else (k0, v0)) = (k0, v0) := by
        simp [hb]
      rw [List.map_cons, hhead]
      simp only [List.lookup_cons, hb2]
      exact ih hany

/-- Appending a fresh key makes that key resolve to the appended value. -/
theorem lookup_append_fresh (m : List (String × StoredChat)) (k : String)
    (v : StoredChat) (h : m.any (fun p => p.1 == k) = false) :
    (m ++ [(k, v)]).lookup k = some v := by
  have hnone : m.lookup k = none := by
    rw [List.lookup_eq_none_iff]
    intro p hp
    have hx : ¬(p.1 == k) = true := by
      intro hcontra
      rw [List.any_eq_false] at h
      exact h p hp hcontra
    simp at hx ⊢
    exact fun he => hx he.symm
  rw [List.lookup_append, hnone, Option.none_or]
  exact List.lookup_cons_self

/-- Map.set always makes the key resolve to the new value. -/
theorem mapSet_lookup (m : List (String × StoredChat)) (k : String) (v : StoredChat) :
    (mapSet m k v).lookup k = some v := by
  unfold mapSet
  split
  · exact lookup_mapSet_replace m k v ‹_›
  · rename_i h
    exact lookup_append_fresh m k v (Bool.eq_false_iff.mpr h)

/-- Replacement does not change the key sequence. -/
theorem map_keys_mapSet (m : List (String × StoredChat)) (k : String) (v : StoredChat) :
    (m.map (fun p => if p.1 == k then (k, v) else p)).map (fun p => p.1)
      = m.map (fun p => p.1) := by
  induction m with
  | nil => rfl
  | cons p tl ih =>
    rcases p with ⟨k0, v0⟩
    rw [List.map_cons, List.map_cons, List.map_cons]
    rw [ih]
    congr 1
    by_cases hk : k0 = k
    · subst hk
      rw [if_pos (beq_self_eq_true k0)]
    · have hb : (k0 == k) = false := beq_false_of_ne hk
      simp [hb]

/-- Map.set preserves distinctness of the keys. -/
theorem mapSet_keys_nodup {m : List (String × StoredChat)} {k : String} {v : StoredChat}
    (h : (m.map (fun p => p.1)).Nodup) :
    ((mapSet m k v).map (fun p => p.1)).Nodup := by
  unfold mapSet
  split
  · rw [map_keys_mapSet]; exact h
  · rename_i hany
    have hnotin : k ∉ m.map (fun p => p.1) := by
      intro hmem
      rcases List.mem_map.mp hmem with ⟨p, hp, hpk⟩
      exact absurd (List.any_eq_true.mpr ⟨p, hp, by simp [hpk]⟩) hany
    simp [List.map_append, List.nodup_append, h, hnotin]

/-- Any run of store operations keeps the main map's keys distinct. -/
theorem runStore_keys_nodup (ops : List (DeviceEntity × Bool × String)) :
    ∀ st : ChatStorage, (st.chats.map (fun p => p.1)).Nodup →
      ((runStore st ops).chats.map (fun p => p.1)).Nodup := by
  induction ops with
  | nil => intro st h; exact h
  | cons op ops ih =>
    rcases op with ⟨e, wb, now⟩
    intro st h
    exact ih _ (mapSet_keys_nodup h)

/-- Every map entry is keyed by its record id. -/
theorem mapSet_pairing {m : List (String × StoredChat)} {k : String} {v : StoredChat}
    (hm : ∀ p ∈ m, p.1 = p.2._id) (hv : k = v._id) :
    ∀ p ∈ mapSet m k v, p.1 = p.2._id := by
  unfold mapSet
  split
  · intro p hp
    rcases List.mem_map.mp hp with ⟨q, hq, rfl⟩
    by_cases hqk : (q.1 == k) = true
    · simp only [hqk, if_true]
      exact hv
    · simp only [hqk, if_false, Bool.false_eq_true]
      exact hm q hq
  · intro p hp
    rcases List.mem_append.mp hp with h | h
    · exact hm p h
    · simp at h
      subst h
      exact hv

/-- Any run of store operations keeps map entries keyed by their record id. -/
theorem runStore_pairing (ops : List (DeviceEntity × Bool × String)) :
    ∀ st : ChatStorage, (∀ p ∈ st.chats, p.1 = p.2._id) →
      ∀ p ∈ (runStore st ops).chats, p.1 = p.2._id := by
  induction ops with
  | nil => intro st h; exact h
  | cons op ops ih =>
    rcases op with ⟨e, wb, now⟩
    intro st h
    exact ih _ (mapSet_pairing h rfl)

/-- Under that pairing, the ids of the values are the keys. -/
theorem map_ids_eq_keys (l : List (String × StoredChat))
    (h : ∀ p ∈ l, p.1 = p.2._id) :
    (l.map (fun p => p.2)).map (fun c => c._id) = l.map (fun p => p.1) := by
  rw [List.map_map]
  exact List.map_congr_left fun p hp => (h p hp).symm

/-- C10: the primary view holds at most one record per id (any run of store
operations from the empty storage keeps the map keys distinct, and a later
store under an existing id makes that id resolve to the new record), while
the anonymous view appends one entry per whistleblow store and is untouched
otherwise; consequently a whistleblow entry can survive under an id that the
primary view has since rebound to a different, newer record. -/
theorem chat_storage_views :
    (∀ ops : List (DeviceEntity × Bool × String),
      ((runStore ChatStorage.empty ops).getAllChats.map (fun c => c._id)).Nodup) ∧
    (∀ (st : ChatStorage) (e : DeviceEntity) (wb : Bool) (now : String),
      (st.storeChat e wb now).getChatById e._id = some ⟨e, now, wb⟩) ∧
    (∀ (st : ChatStorage) (e : DeviceEntity) (now : String),
      (st.storeChat e true now).getWhistleblowMessages
        = st.getWhistleblowMessages ++ [⟨e, now, true⟩]) ∧
    (∀ (st : ChatStorage) (e : DeviceEntity) (now : String),
      (st.storeChat e false now).getWhistleblowMessages
        = st.getWhistleblowMessages) ∧
    (((ChatStorage.empty.storeChat ⟨"a", "n", "d", none, "ls", none, [], "one"⟩
          true "T1").storeChat
        ⟨"a", "n", "d", none, "ls", none, [], "two"⟩ false "T2").getWhistleblowMessages
        = [⟨⟨"a", "n", "d", none, "ls", none, [], "one"⟩, "T1", true⟩]
      ∧ ((ChatStorage.empty.storeChat ⟨"a", "n", "d", none, "ls", none, [], "one"⟩
            true "T1").storeChat
          ⟨"a", "n", "d", none, "ls", none, [], "two"⟩ false "T2").getChatById "a"
        = some ⟨⟨"a", "n", "d", none, "ls", none, [], "two"⟩, "T2", false⟩
      ∧ (⟨⟨"a", "n", "d", none, "ls", none, [], "one"⟩, "T1", true⟩ : StoredChat)
        ≠ ⟨⟨"a", "n", "d", none, "ls", none, [], "two"⟩, "T2", false⟩) := by
  refine ⟨?_, ?_, ?_, ?_, by decide⟩
  · intro ops
    have hpair := runStore_pairing ops ChatStorage.empty (by simp [ChatStorage.empty])
    show (((runStore ChatStorage.empty ops).chats.map (fun p => p.2)).map
      (fun c => c._id)).Nodup
    rw [map_ids_eq_keys _ hpair]
    exact runStore_keys_nodup ops ChatStorage.empty (by simp [ChatStorage.empty])
  · intro st e wb now
    exact mapSet_lookup st.chats e._id ⟨e, now, wb⟩
  · intro st e now; rfl
  · intro st e now; rfl
